import Mathlib

/-!
Verification of the boot-integrity and recovery subsystem of the
TriptaLabs Heat Controller firmware (`src/main/bootloader/`).

The C sources are shallowly embedded: pure helpers become Lean functions,
stateful code becomes explicit state passing (the NVS key-value store is an
`Option` of the stored blob, the statistics blob is a structure), and the
I/O steps of the recovery pipeline are abstracted by their result codes.
Machine integers are `Nat` with an explicit `% 2 ^ w` where the C type's
width can matter (the `uint8_t` / `uint32_t` counters in
`bootloader_stats_t`).
-/

/-- ESP-IDF result codes used by the bootloader sources
(`esp_err.h` values, restricted to those this subsystem produces). -/
inductive EspErr where
  | ESP_OK
  | ESP_FAIL
  | ESP_ERR_INVALID_ARG
  | ESP_ERR_NOT_FOUND
  | ESP_ERR_INVALID_SIZE
  | ESP_ERR_INVALID_CRC
  | ESP_ERR_NO_MEM
  | ESP_ERR_INVALID_STATE
  | ESP_ERR_TIMEOUT
deriving DecidableEq, Repr

/-- Boot reasons, `boot_reason_t` from `bootloader_config.h`. -/
inductive boot_reason_t where
  | BOOT_REASON_NORMAL
  | BOOT_REASON_CORRUPTION
  | BOOT_REASON_UPDATE_FAILED
  | BOOT_REASON_RECOVERY
  | BOOT_REASON_MULTIPLE_FAILURES
  | BOOT_REASON_SD_RECOVERY
  | BOOT_REASON_EMERGENCY
deriving DecidableEq, Repr

/-- Recovery states, `recovery_state_t` from `bootloader_config.h`
(enum order preserved). -/
inductive recovery_state_t where
  | RECOVERY_STATE_IDLE
  | RECOVERY_STATE_CHECKING
  | RECOVERY_STATE_SD_MOUNT
  | RECOVERY_STATE_FIRMWARE_VERIFY
  | RECOVERY_STATE_FLASHING
  | RECOVERY_STATE_CLEANUP
  | RECOVERY_STATE_SUCCESS
  | RECOVERY_STATE_FAILED
deriving DecidableEq, Repr

/-- Numeric value of a `recovery_state_t` constructor, as assigned by the C
enum declaration (IDLE = 0 .. FAILED = 7). -/
def recovery_state_rank : recovery_state_t → Nat
  | .RECOVERY_STATE_IDLE => 0
  | .RECOVERY_STATE_CHECKING => 1
  | .RECOVERY_STATE_SD_MOUNT => 2
  | .RECOVERY_STATE_FIRMWARE_VERIFY => 3
  | .RECOVERY_STATE_FLASHING => 4
  | .RECOVERY_STATE_CLEANUP => 5
  | .RECOVERY_STATE_SUCCESS => 6
  | .RECOVERY_STATE_FAILED => 7

/-- Configuration constant `MAX_BOOT_ATTEMPTS` (`bootloader_config.h`). -/
def MAX_BOOT_ATTEMPTS : Nat := 3

/-- Configuration constant `MAX_RECOVERY_ATTEMPTS` (`bootloader_config.h`). -/
def MAX_RECOVERY_ATTEMPTS : Nat := 3

/-- Configuration constant `FIRMWARE_MIN_SIZE` (`bootloader_config.h`). -/
def FIRMWARE_MIN_SIZE : Nat := 1024 * 1024

/-- Configuration constant `FIRMWARE_MAX_SIZE` (`bootloader_config.h`). -/
def FIRMWARE_MAX_SIZE : Nat := 9 * 1024 * 1024

/-- Macro `IS_VALID_FIRMWARE_SIZE` (`bootloader_config.h`). -/
def IS_VALID_FIRMWARE_SIZE (size : Nat) : Bool :=
  FIRMWARE_MIN_SIZE ≤ size && size ≤ FIRMWARE_MAX_SIZE

/-- Modulus of a C `uint8_t`. -/
def UINT8_MOD : Nat := 2 ^ 8

/-- Modulus of a C `uint32_t`. -/
def UINT32_MOD : Nat := 2 ^ 32

/-!
## Hex encoding and decoding (`integrity_checker.c`)

A digest is a list of byte values (each `< 256`, 32 entries for SHA-256);
a hex string is a list of ASCII character codes.
-/

/-- Lookup in the C table `hex_digits[] = "0123456789abcdef"` used by
`byte_to_hex`: ASCII code of the hex digit for a nibble `n < 16`. -/
def hex_digit_char (n : Nat) : Nat :=
  if n < 10 then 48 + n else 87 + n

/-- C `byte_to_hex` (`integrity_checker.c`): the two hex characters of a
byte, high nibble `(byte >> 4) & 0xF` first, then low nibble `byte & 0xF`. -/
def byte_to_hex (b : Nat) : List Nat :=
  [hex_digit_char (b / 16 % 16), hex_digit_char (b % 16)]

/-- C `hex_char_to_byte` (`integrity_checker.c`): decodes one ASCII hex
character; any unrecognized character yields 0. -/
def hex_char_to_byte (c : Nat) : Nat :=
  if 48 ≤ c ∧ c ≤ 57 then c - 48
  else if 97 ≤ c ∧ c ≤ 102 then c - 97 + 10
  else if 65 ≤ c ∧ c ≤ 70 then c - 65 + 10
  else 0

/-- C `hash_to_hex_string` (`integrity_checker.c`): the loop
`for i in 0..31: byte_to_hex(hash[i], &hex_string[i*2])`, modelled as the
concatenation of the per-byte encodings (call sites pass 32-byte digests). -/
def hash_to_hex_string : List Nat → List Nat
  | [] => []
  | b :: rest => byte_to_hex b ++ hash_to_hex_string rest

/-- Decoding loop of C `hex_string_to_hash`:
`hash[i] = (hex_char_to_byte(s[2i]) << 4) | hex_char_to_byte(s[2i+1])`,
consuming the string two characters at a time. -/
def decode_hex_pairs : List Nat → List Nat
  | c1 :: c2 :: rest =>
      (hex_char_to_byte c1 <<< 4 ||| hex_char_to_byte c2) :: decode_hex_pairs rest
  | _ => []

/-- C string length of a byte buffer: number of bytes before the first NUL
(the buffers at the call sites are NUL-terminated right after the listed
bytes, so `strlen` over the buffer is this value). -/
def c_strlen (s : List Nat) : Nat :=
  (s.takeWhile (fun c => c ≠ 0)).length

/-- C `hex_string_to_hash` (`integrity_checker.c`): rejects with
`ESP_ERR_INVALID_SIZE` unless `strlen` of the buffer is exactly 64, then
decodes 32 bytes. The argument is the byte content of the buffer passed by
the caller (terminator excluded). -/
def hex_string_to_hash (s : List Nat) : Except EspErr (List Nat) :=
  if c_strlen s ≠ 64 then .error .ESP_ERR_INVALID_SIZE
  else .ok (decode_hex_pairs s)

/-- C `read_hex_hash_file` (`sd_recovery.c`). The file is modelled by its
byte content (`none` when `fopen` fails). `fread(hex_string, 1, 64, f)`
reads at most the first 64 bytes into a zeroed 65-byte buffer; a short read
is rejected with `ESP_ERR_INVALID_SIZE`, otherwise the 64 read bytes are
handed to `hex_string_to_hash`. -/
def read_hex_hash_file (file : Option (List Nat)) : Except EspErr (List Nat) :=
  match file with
  | none => .error .ESP_ERR_NOT_FOUND
  | some content =>
      let read := content.take 64
      if read.length ≠ 64 then .error .ESP_ERR_INVALID_SIZE
      else hex_string_to_hash read

/-!
## Integrity checker (`integrity_checker.c`)

The NVS blob under key `app_hash` is modelled as `Option (List Nat)`
(`none` when `nvs_get_blob` reports `ESP_ERR_NVS_NOT_FOUND`); `nvs_set_blob`
followed by `nvs_commit` replaces it. The running partition is modelled by
its declared size and the SHA-256 digest its content hashes to (the
streaming computation of `calculate_partition_sha256` is abstracted by that
digest; read errors are not modelled).
-/

/-- C `compare_sha256_hashes` (`integrity_checker.c`): `memcmp` of the two
32-byte digests, i.e. equality of the byte lists at the call sites. -/
def compare_sha256_hashes (hash1 hash2 : List Nat) : Bool :=
  hash1 == hash2

/-- C `firmware_info_t` (`bootloader_config.h`), without the optional
`firmware_header_t` member (never touched on the partition-verification
paths the claims concern). -/
structure firmware_info_t where
  valid : Bool
  size : Nat
  calculated_hash : List Nat
  stored_hash : List Nat
  hash_match : Bool
deriving DecidableEq, Repr

/-- Zero-initialized `firmware_info_t`, as produced by the
`memset(firmware_info, 0, ...)` at the top of
`verify_app_partition_integrity` (hash buffers are 32 zero bytes). -/
def firmware_info_zero : firmware_info_t :=
  { valid := false
    size := 0
    calculated_hash := List.replicate 32 0
    stored_hash := List.replicate 32 0
    hash_match := false }

/-- C `verify_app_partition_integrity` (`integrity_checker.c`).
Inputs: declared partition size, the digest the partition content hashes to
(result of `calculate_partition_sha256`), and the NVS baseline blob.
Output: the result code, the filled `firmware_info_t`, and the NVS baseline
blob after the call (the first-boot path stores the calculated digest). -/
def verify_app_partition_integrity (size : Nat) (calcHash : List Nat)
    (nvs : Option (List Nat)) :
    EspErr × firmware_info_t × Option (List Nat) :=
  if ¬IS_VALID_FIRMWARE_SIZE size then
    (.ESP_ERR_INVALID_SIZE, firmware_info_zero, nvs)
  else
    match nvs with
    | none =>
        (.ESP_OK,
         { firmware_info_zero with
             size := size
             calculated_hash := calcHash
             hash_match := true
             valid := true },
         some calcHash)
    | some stored =>
        let hashes_equal := compare_sha256_hashes calcHash stored
        let info : firmware_info_t :=
          { firmware_info_zero with
              size := size
              calculated_hash := calcHash
              stored_hash := stored
              hash_match := hashes_equal
              valid := hashes_equal }
        if hashes_equal then (.ESP_OK, info, nvs)
        else (.ESP_ERR_INVALID_CRC, info, nvs)

/-!
## SD recovery pipeline (`sd_recovery.c`)
-/

/-- Path constant `SD_UPDATE_FIRMWARE_PATH` (`bootloader_config.h`). -/
def SD_UPDATE_FIRMWARE_PATH : String := "/sdcard/recovery/update.bin"

/-- Path constant `SD_UPDATE_FIRMWARE_HASH_PATH` (`bootloader_config.h`). -/
def SD_UPDATE_FIRMWARE_HASH_PATH : String := "/sdcard/recovery/update.bin.sha256"

/-- Path constant `SD_BASE_FIRMWARE_PATH` (`bootloader_config.h`). -/
def SD_BASE_FIRMWARE_PATH : String := "/sdcard/recovery/base_firmware.bin"

/-- Path constant `SD_BASE_FIRMWARE_HASH_PATH` (`bootloader_config.h`). -/
def SD_BASE_FIRMWARE_HASH_PATH : String := "/sdcard/recovery/base_firmware.bin.sha256"

/-- File-existence view of the mounted SD medium for the four candidate
files consulted by `find_recovery_firmware` (`file_exists` on each path). -/
structure SdFiles where
  update_bin : Bool
  update_hash : Bool
  base_bin : Bool
  base_hash : Bool
deriving DecidableEq, Repr

/-- C `find_recovery_firmware` (`sd_recovery.c`): after `mount_sd_card`
(whose result is passed in) and `create_recovery_directory` (result
ignored by the source), returns the update pair when both its files exist,
else the base pair when both its files exist, else `ESP_ERR_NOT_FOUND`.
The successful value is the `(firmware_path, hash_path)` pair copied into
the output buffers. -/
def find_recovery_firmware (mountRes : EspErr) (fs : SdFiles) :
    Except EspErr (String × String) :=
  if mountRes ≠ .ESP_OK then .error mountRes
  else if fs.update_bin && fs.update_hash then
    .ok (SD_UPDATE_FIRMWARE_PATH, SD_UPDATE_FIRMWARE_HASH_PATH)
  else if fs.base_bin && fs.base_hash then
    .ok (SD_BASE_FIRMWARE_PATH, SD_BASE_FIRMWARE_HASH_PATH)
  else .error .ESP_ERR_NOT_FOUND

/-- C `perform_full_sd_recovery` (`sd_recovery.c`), abstracted over the
result codes of its four fallible steps (`mount_sd_card`,
`find_recovery_firmware`, `verify_sd_firmware_integrity`,
`flash_firmware_from_sd`; `cleanup_recovery_files` always returns `ESP_OK`
and its result is ignored). Returns the sequence of `recovery_state_t`
values written to `*recovery_info`, in write order, together with the
function's return value. -/
def perform_full_sd_recovery (mountRes findRes verifyRes flashRes : EspErr) :
    List recovery_state_t × EspErr :=
  if mountRes ≠ .ESP_OK then
    ([.RECOVERY_STATE_SD_MOUNT, .RECOVERY_STATE_FAILED], mountRes)
  else if findRes ≠ .ESP_OK then
    ([.RECOVERY_STATE_SD_MOUNT, .RECOVERY_STATE_FAILED], findRes)
  else if verifyRes ≠ .ESP_OK then
    ([.RECOVERY_STATE_SD_MOUNT, .RECOVERY_STATE_FIRMWARE_VERIFY,
      .RECOVERY_STATE_FAILED], verifyRes)
  else if flashRes ≠ .ESP_OK then
    ([.RECOVERY_STATE_SD_MOUNT, .RECOVERY_STATE_FIRMWARE_VERIFY,
      .RECOVERY_STATE_FLASHING, .RECOVERY_STATE_FAILED], flashRes)
  else
    ([.RECOVERY_STATE_SD_MOUNT, .RECOVERY_STATE_FIRMWARE_VERIFY,
      .RECOVERY_STATE_FLASHING, .RECOVERY_STATE_CLEANUP,
      .RECOVERY_STATE_SUCCESS], .ESP_OK)

/-!
## Escalation controller (`bootloader_main.c`)

`bootloader_stats_t` is the persisted statistics blob. Counter fields keep
their C widths through explicit `% UINT8_MOD` / `% UINT32_MOD` on every
increment. Persistence (`save_bootloader_stats`, i.e. `nvs_set_blob` +
`nvs_commit` of the whole blob) and the externally visible effects of
`bootloader_check_and_decide` are recorded as an event trace.
-/

/-- C `bootloader_stats_t` (`bootloader_config.h`). -/
structure bootloader_stats_t where
  boot_attempts : Nat
  recovery_attempts : Nat
  total_boots : Nat
  total_recoveries : Nat
  last_boot_reason : boot_reason_t
  last_recovery_timestamp : Nat
  first_boot : Bool
deriving DecidableEq, Repr

/-- C `should_force_recovery` (`bootloader_main.c`). -/
def should_force_recovery (stats : bootloader_stats_t) : Bool :=
  if stats.boot_attempts ≥ MAX_BOOT_ATTEMPTS then true
  else if stats.recovery_attempts ≥ MAX_RECOVERY_ATTEMPTS then true
  else false

/-- C `reset_boot_counters` (`bootloader_main.c`), without its
`save_bootloader_stats` call (the caller's trace records the save). -/
def reset_boot_counters (stats : bootloader_stats_t) : bootloader_stats_t :=
  { stats with boot_attempts := 0, recovery_attempts := 0 }

/-- C `record_recovery_event` (`bootloader_main.c`), without its trailing
`save_bootloader_stats` call (the caller's trace records the save).
`ts` is the `esp_log_timestamp()` value. -/
def record_recovery_event (success : Bool) (ts : Nat)
    (stats : bootloader_stats_t) : bootloader_stats_t :=
  let s1 : bootloader_stats_t :=
    { stats with
        total_recoveries := (stats.total_recoveries + 1) % UINT32_MOD
        last_recovery_timestamp := ts }
  if success then
    { s1 with
        recovery_attempts := 0
        last_boot_reason := .BOOT_REASON_SD_RECOVERY }
  else
    { s1 with
        recovery_attempts := (s1.recovery_attempts + 1) % UINT8_MOD
        last_boot_reason := .BOOT_REASON_RECOVERY }

/-- Externally visible steps of `bootloader_check_and_decide`, in program
order: running the integrity checker, persisting the statistics blob (with
the persisted value), starting automatic SD recovery, entering manual
recovery mode (with the `last_boot_reason` argument), `esp_restart`, and
the `show_critical_error` notification. -/
inductive BootEvent where
  | integrityCheck
  | saveStats (s : bootloader_stats_t)
  | autoRecovery
  | manualRecovery (reason : boot_reason_t)
  | restart
  | criticalNotify
deriving DecidableEq, Repr

/-- Return disposition of `bootloader_check_and_decide`: `ESP_OK`
(continue normal boot), the non-returning `esp_restart()` after a
successful recovery, or `ESP_FAIL` (critical failure). -/
inductive BootOutcome where
  | ContinueNormalBoot
  | Restarting
  | CriticalFailure
deriving DecidableEq, Repr

/-- C `bootloader_check_and_decide` (`bootloader_main.c`).
Inputs: the in-memory statistics at entry, the result the integrity
checker would report (`verify_app_partition_integrity`), the results of
automatic recovery (`perform_full_sd_recovery`) and of manual recovery
(`enter_recovery_mode`), and the recovery timestamp. Output: the outcome,
the final in-memory statistics, and the event trace. -/
def bootloader_check_and_decide (stats : bootloader_stats_t)
    (integrityRes autoRes manualRes : EspErr) (ts : Nat) :
    BootOutcome × bootloader_stats_t × List BootEvent :=
  if should_force_recovery stats = false ∧ integrityRes = .ESP_OK then
    -- app intact: reset counters, persist, continue normal boot
    (.ContinueNormalBoot, reset_boot_counters stats,
      [.integrityCheck, .saveStats (reset_boot_counters stats)])
  else
    -- trace prefix and last_boot_reason depend on why we got here
    let pre : List BootEvent :=
      if should_force_recovery stats then [] else [.integrityCheck]
    let stats1 : bootloader_stats_t :=
      if should_force_recovery stats then
        { stats with last_boot_reason := .BOOT_REASON_MULTIPLE_FAILURES }
      else
        { stats with last_boot_reason := .BOOT_REASON_CORRUPTION }
    if autoRes = .ESP_OK then
      let s2 := record_recovery_event true ts stats1
      (.Restarting, s2, pre ++ [.autoRecovery, .saveStats s2, .restart])
    else
      let s2 := record_recovery_event false ts stats1
      if manualRes = .ESP_OK then
        let s3 := record_recovery_event true ts s2
        (.Restarting, s3,
          pre ++ [.autoRecovery, .saveStats s2,
                  .manualRecovery s2.last_boot_reason, .saveStats s3,
                  .restart])
      else
        let s3 := record_recovery_event false ts s2
        (.CriticalFailure, s3,
          pre ++ [.autoRecovery, .saveStats s2,
                  .manualRecovery s2.last_boot_reason, .saveStats s3,
                  .criticalNotify])

/-!
## Auxiliary lemmas about the hex codec
-/

/-- The hex-digit table never contains a NUL character. -/
theorem hex_digit_char_pos (n : Nat) : 0 < hex_digit_char n := by
  unfold hex_digit_char
  split <;> omega

/-- Decoding inverts the hex-digit table on nibbles. -/
theorem hex_char_to_byte_hex_digit_char :
    ∀ n, n < 16 → hex_char_to_byte (hex_digit_char n) = n := by decide

set_option maxRecDepth 4096 in
/-- Reassembling the two decoded nibbles of a byte recovers the byte. -/
theorem decode_byte_to_hex_pair :
    ∀ b, b < 256 →
      hex_char_to_byte (hex_digit_char (b / 16 % 16)) <<< 4 |||
        hex_char_to_byte (hex_digit_char (b % 16)) = b := by decide

/-- Length of the pairwise hex decoding. -/
theorem decode_hex_pairs_length : ∀ s : List Nat,
    (decode_hex_pairs s).length = s.length / 2
  | [] => rfl
  | [_] => by simp [decode_hex_pairs]
  | _ :: _ :: rest => by
      simp [decode_hex_pairs, decode_hex_pairs_length rest]
      omega

/-- Length of the hex encoding. -/
theorem hash_to_hex_string_length : ∀ h : List Nat,
    (hash_to_hex_string h).length = 2 * h.length
  | [] => rfl
  | _ :: rest => by
      simp [hash_to_hex_string, byte_to_hex, hash_to_hex_string_length rest]
      omega

/-- The hex encoding of a digest contains no NUL characters. -/
theorem hash_to_hex_string_ne_zero : ∀ h : List Nat,
    ∀ c ∈ hash_to_hex_string h, c ≠ 0
  | [], c, hc => by simp [hash_to_hex_string] at hc
  | b :: rest, c, hc => by
      simp only [hash_to_hex_string, byte_to_hex, List.cons_append,
        List.nil_append, List.mem_cons] at hc
      rcases hc with h1 | h1 | h1
      · subst h1; exact Nat.ne_of_gt (hex_digit_char_pos _)
      · subst h1; exact Nat.ne_of_gt (hex_digit_char_pos _)
      · exact hash_to_hex_string_ne_zero rest c h1

/-- Pairwise decoding inverts the encoding on byte lists. -/
theorem decode_hex_pairs_hash_to_hex_string : ∀ h : List Nat,
    (∀ b ∈ h, b < 256) → decode_hex_pairs (hash_to_hex_string h) = h
  | [], _ => rfl
  | b :: rest, hb => by
      have hb0 : b < 256 := hb b (by simp)
      have ih := decode_hex_pairs_hash_to_hex_string rest
        (fun x hx => hb x (by simp [hx]))
      simp only [hash_to_hex_string, byte_to_hex, List.cons_append,
        List.nil_append, decode_hex_pairs]
      simp [decode_byte_to_hex_pair b hb0, ih]

/-!
## Claims about the digest-file codec
-/

/-- C4 counterexample: the claim "any length other than 64, shorter or
longer, is rejected" fails for longer files. A 65-character digest file of
hex characters (`'a' = 97` repeated) is not rejected: `fread` reads only
the first 64 characters, so the file is accepted and decodes to 32 bytes
of `0xaa = 170`. -/
theorem C4_counterexample :
    (List.replicate 65 97).length ≠ 64 ∧
      read_hex_hash_file (some (List.replicate 65 97)) =
        .ok (List.replicate 32 170) := by
  constructor
  · decide
  · rfl

/-- C4 (amended): every detached digest file whose length is less than 64
characters is rejected by candidate verification with the
`ESP_ERR_INVALID_SIZE` error kind; a file longer than 64 characters is not
rejected for its length — only its first 64 characters are read and
decoded. -/
theorem C4_short_digest_file_rejected (content : List Nat)
    (hshort : content.length < 64) :
    read_hex_hash_file (some content) = .error .ESP_ERR_INVALID_SIZE := by
  unfold read_hex_hash_file
  have hlen : (content.take 64).length ≠ 64 := by
    rw [List.length_take]
    omega
  simp [hlen]
  intro hc
  exact absurd hc (by omega)

/-- Witness for C4 (amended) at the empty file. -/
theorem C4_short_digest_file_rejected_witness :
    ([] : List Nat).length < 64 ∧
      read_hex_hash_file (some []) = .error .ESP_ERR_INVALID_SIZE :=
  ⟨by decide, C4_short_digest_file_rejected [] (by decide)⟩

/-- C5: encoding a 32-byte digest with `hash_to_hex_string` and decoding
the resulting 64-character lowercase hex string with `hex_string_to_hash`
yields exactly the original 32 bytes. -/
theorem C5_hex_roundtrip (digest : List Nat) (hlen : digest.length = 32)
    (hbytes : ∀ b ∈ digest, b < 256) :
    hex_string_to_hash (hash_to_hex_string digest) = .ok digest := by
  have hself : (hash_to_hex_string digest).takeWhile (fun c => c ≠ 0) =
      hash_to_hex_string digest := by
    rw [List.takeWhile_eq_self_iff]
    intro x hx
    simpa using hash_to_hex_string_ne_zero digest x hx
  have hstr : c_strlen (hash_to_hex_string digest) = 64 := by
    unfold c_strlen
    rw [hself, hash_to_hex_string_length, hlen]
  simp [hex_string_to_hash, hstr,
    decode_hex_pairs_hash_to_hex_string digest hbytes]

/-- Witness for C5 at the digest consisting of 32 bytes `0xab = 171`. -/
theorem C5_hex_roundtrip_witness :
    hex_string_to_hash (hash_to_hex_string (List.replicate 32 171)) =
      .ok (List.replicate 32 171) :=
  C5_hex_roundtrip _ (by decide) (by decide)

/-- C10 counterexample: the claim "a 64-character file with non-hex
characters is never rejected as a decode error" fails for NUL bytes. A
64-character digest file consisting of NUL characters (not hex digits) is
rejected with `ESP_ERR_INVALID_SIZE`: `hex_string_to_hash` measures the
buffer with `strlen`, which stops at the first NUL. -/
theorem C10_counterexample :
    (List.replicate 64 0).length = 64 ∧
      read_hex_hash_file (some (List.replicate 64 0)) =
        .error .ESP_ERR_INVALID_SIZE := by
  constructor
  · decide
  · rfl

/-- C10 (amended): every character that is not an ASCII hex digit decodes
to nibble value 0, and every 64-character digest file containing no NUL
byte is accepted by `read_hex_hash_file`, decoding deterministically to a
32-byte value (so a failure for such files surfaces only later as a digest
comparison mismatch); 64-character files containing a NUL byte are instead
rejected with `ESP_ERR_INVALID_SIZE`. -/
theorem C10_nonhex_chars_decode_to_zero :
    (∀ c, ¬(48 ≤ c ∧ c ≤ 57) → ¬(97 ≤ c ∧ c ≤ 102) → ¬(65 ≤ c ∧ c ≤ 70) →
        hex_char_to_byte c = 0) ∧
    (∀ content : List Nat, content.length = 64 → (∀ c ∈ content, c ≠ 0) →
        read_hex_hash_file (some content) = .ok (decode_hex_pairs content) ∧
          (decode_hex_pairs content).length = 32) := by
  constructor
  · intro c h1 h2 h3
    unfold hex_char_to_byte
    simp [h1, h2, h3]
  · intro content hlen hnz
    have htake : content.take 64 = content := by
      rw [← hlen]
      exact List.take_length content
    have hself : content.takeWhile (fun c => c ≠ 0) = content := by
      rw [List.takeWhile_eq_self_iff]
      intro x hx
      simpa using hnz x hx
    have hstr : c_strlen content = 64 := by
      unfold c_strlen
      rw [hself, hlen]
    constructor
    · simp [read_hex_hash_file, htake, hlen, hex_string_to_hash, hstr]
    · rw [decode_hex_pairs_length, hlen]

/-- Witness for C10 (amended): a 64-character file of `'g' = 103`
characters (not hex digits, not NUL) is accepted and decodes to 32 bytes. -/
theorem C10_nonhex_chars_decode_to_zero_witness :
    read_hex_hash_file (some (List.replicate 64 103)) =
        .ok (decode_hex_pairs (List.replicate 64 103)) ∧
      (decode_hex_pairs (List.replicate 64 103)).length = 32 :=
  C10_nonhex_chars_decode_to_zero.2 _ (by decide) (by decide)

/-!
## Claims about the integrity checker
-/

/-- C2: when no baseline digest exists in NVS, `verify_app_partition_integrity`
returns `ESP_OK` with `valid = true` and `hash_match = true`, and the NVS
baseline afterwards holds the freshly calculated digest. -/
theorem C2_first_boot_trust (size : Nat) (calcHash : List Nat)
    (hsize : IS_VALID_FIRMWARE_SIZE size = true) :
    let r := verify_app_partition_integrity size calcHash none
    r.1 = .ESP_OK ∧ r.2.1.valid = true ∧ r.2.1.hash_match = true ∧
      r.2.1.calculated_hash = calcHash ∧ r.2.2 = some calcHash := by
  simp [verify_app_partition_integrity, hsize]

/-- Witness for C2 at a 2 MiB partition with an all-`0x11` digest. -/
theorem C2_first_boot_trust_witness :
    let r := verify_app_partition_integrity (2 * 1024 * 1024)
      (List.replicate 32 17) none
    r.1 = .ESP_OK ∧ r.2.1.valid = true ∧ r.2.1.hash_match = true ∧
      r.2.1.calculated_hash = List.replicate 32 17 ∧
      r.2.2 = some (List.replicate 32 17) :=
  C2_first_boot_trust (2 * 1024 * 1024) (List.replicate 32 17) (by decide)

/-- C3: with a stored baseline `d1` and a running image hashing to `d2`,
`verify_app_partition_integrity` returns `ESP_ERR_INVALID_CRC` with both
digests populated, `hash_match = false` and `valid = false` when `d2 ≠ d1`,
and returns `ESP_OK` with `valid = true` when `d2 = d1`. -/
theorem C3_corruption_detection (size : Nat) (d1 d2 : List Nat)
    (hsize : IS_VALID_FIRMWARE_SIZE size = true) :
    let r := verify_app_partition_integrity size d2 (some d1)
    (d2 ≠ d1 →
        r.1 = .ESP_ERR_INVALID_CRC ∧ r.2.1.calculated_hash = d2 ∧
          r.2.1.stored_hash = d1 ∧ r.2.1.hash_match = false ∧
          r.2.1.valid = false ∧ r.2.2 = some d1) ∧
    (d2 = d1 → r.1 = .ESP_OK ∧ r.2.1.valid = true) := by
  by_cases h : d2 = d1
  · simp [verify_app_partition_integrity, hsize, compare_sha256_hashes, h]
  · simp [verify_app_partition_integrity, hsize, compare_sha256_hashes, h]

/-- Witness for C3: mismatching digests (all `0x00` stored, all `0xff`
calculated) are reported as corruption. -/
theorem C3_corruption_detection_witness :
    let r := verify_app_partition_integrity (2 * 1024 * 1024)
      (List.replicate 32 255) (some (List.replicate 32 0))
    r.1 = .ESP_ERR_INVALID_CRC ∧
      r.2.1.calculated_hash = List.replicate 32 255 ∧
      r.2.1.stored_hash = List.replicate 32 0 ∧
      r.2.1.hash_match = false ∧ r.2.1.valid = false ∧
      r.2.2 = some (List.replicate 32 0) :=
  (C3_corruption_detection (2 * 1024 * 1024) (List.replicate 32 0)
    (List.replicate 32 255) (by decide)).1 (by decide)

/-!
## Claims about the SD recovery pipeline
-/

/-- C7: on a mounted medium, when both the update image and its digest file
and the base image and its digest file exist, discovery returns the
`update.bin` candidate; when neither complete pair exists, discovery
returns `ESP_ERR_NOT_FOUND`. -/
theorem C7_candidate_priority (fs : SdFiles) :
    (fs.update_bin = true → fs.update_hash = true → fs.base_bin = true →
        fs.base_hash = true →
        find_recovery_firmware .ESP_OK fs =
          .ok (SD_UPDATE_FIRMWARE_PATH, SD_UPDATE_FIRMWARE_HASH_PATH)) ∧
    (¬(fs.update_bin = true ∧ fs.update_hash = true) →
        ¬(fs.base_bin = true ∧ fs.base_hash = true) →
        find_recovery_firmware .ESP_OK fs = .error .ESP_ERR_NOT_FOUND) := by
  constructor
  · intro h1 h2 h3 h4
    simp [find_recovery_firmware, h1, h2]
  · intro h1 h2
    simp [find_recovery_firmware, h1, h2]

/-- Witness for C7: all four files present selects the update candidate. -/
theorem C7_candidate_priority_witness :
    find_recovery_firmware .ESP_OK ⟨true, true, true, true⟩ =
      .ok (SD_UPDATE_FIRMWARE_PATH, SD_UPDATE_FIRMWARE_HASH_PATH) :=
  (C7_candidate_priority ⟨true, true, true, true⟩).1 rfl rfl rfl rfl

/-- C6: every execution of `perform_full_sd_recovery` writes a strictly
forward state sequence (in the enum order, which lists Idle before SdMount,
FirmwareVerify, Flashing, Cleanup and Success): no written state moves
backward and Idle is never written (in particular never re-entered); a
failing step writes `Failed` as the next and terminal state and the
function returns that step's error; the terminal state is `Success` if and
only if the function returns `ESP_OK`. -/
theorem C6_recovery_state_machine (mountRes findRes verifyRes flashRes : EspErr) :
    let r := perform_full_sd_recovery mountRes findRes verifyRes flashRes
    List.Chain' (fun a b => recovery_state_rank a < recovery_state_rank b)
        r.1 ∧
      recovery_state_t.RECOVERY_STATE_IDLE ∉ r.1 ∧
      (r.1.getLast? = some .RECOVERY_STATE_SUCCESS ↔ r.2 = .ESP_OK) ∧
      (r.2 ≠ .ESP_OK → r.1.getLast? = some .RECOVERY_STATE_FAILED) ∧
      (mountRes ≠ .ESP_OK → r.2 = mountRes) ∧
      (mountRes = .ESP_OK → findRes ≠ .ESP_OK → r.2 = findRes) ∧
      (mountRes = .ESP_OK → findRes = .ESP_OK → verifyRes ≠ .ESP_OK →
        r.2 = verifyRes) ∧
      (mountRes = .ESP_OK → findRes = .ESP_OK → verifyRes = .ESP_OK →
        flashRes ≠ .ESP_OK → r.2 = flashRes) := by
  by_cases h1 : mountRes = .ESP_OK <;>
    by_cases h2 : findRes = .ESP_OK <;>
      by_cases h3 : verifyRes = .ESP_OK <;>
        by_cases h4 : flashRes = .ESP_OK <;>
          simp [perform_full_sd_recovery, h1, h2, h3, h4,
            recovery_state_rank]

/-- Witness for C6 at a run whose verification step fails with an
integrity mismatch. -/
theorem C6_recovery_state_machine_witness :
    let r := perform_full_sd_recovery .ESP_OK .ESP_OK .ESP_ERR_INVALID_CRC
      .ESP_OK
    List.Chain' (fun a b => recovery_state_rank a < recovery_state_rank b)
        r.1 ∧
      recovery_state_t.RECOVERY_STATE_IDLE ∉ r.1 ∧
      (r.1.getLast? = some .RECOVERY_STATE_SUCCESS ↔ r.2 = .ESP_OK) ∧
      (r.2 ≠ .ESP_OK → r.1.getLast? = some .RECOVERY_STATE_FAILED) ∧
      (EspErr.ESP_OK ≠ EspErr.ESP_OK → r.2 = EspErr.ESP_OK) ∧
      (EspErr.ESP_OK = EspErr.ESP_OK → EspErr.ESP_OK ≠ EspErr.ESP_OK →
        r.2 = EspErr.ESP_OK) ∧
      (EspErr.ESP_OK = EspErr.ESP_OK → EspErr.ESP_OK = EspErr.ESP_OK →
        EspErr.ESP_ERR_INVALID_CRC ≠ EspErr.ESP_OK →
        r.2 = EspErr.ESP_ERR_INVALID_CRC) ∧
      (EspErr.ESP_OK = EspErr.ESP_OK → EspErr.ESP_OK = EspErr.ESP_OK →
        EspErr.ESP_ERR_INVALID_CRC = EspErr.ESP_OK →
        EspErr.ESP_OK ≠ EspErr.ESP_OK →
        r.2 = EspErr.ESP_OK) :=
  C6_recovery_state_machine .ESP_OK .ESP_OK .ESP_ERR_INVALID_CRC .ESP_OK

/-!
## Claims about the escalation controller
-/

/-- Characterization of `should_force_recovery`. -/
theorem should_force_recovery_iff (stats : bootloader_stats_t) :
    should_force_recovery stats = true ↔
      MAX_BOOT_ATTEMPTS ≤ stats.boot_attempts ∨
        MAX_RECOVERY_ATTEMPTS ≤ stats.recovery_attempts := by
  unfold should_force_recovery
  by_cases h1 : stats.boot_attempts ≥ MAX_BOOT_ATTEMPTS
  · simp [h1]
  · by_cases h2 : stats.recovery_attempts ≥ MAX_RECOVERY_ATTEMPTS
    · simp [h1, h2]
    · simp [h1, h2]

/-- C1: whenever the persisted statistics carry `boot_attempts ≥ 3` or
`recovery_attempts ≥ 3`, `bootloader_check_and_decide` enters the recovery
path without ever running the integrity checker (whatever result the
checker would have produced, in particular for a byte-identical image);
conversely the integrity checker runs only when both counters are below
their thresholds. -/
theorem C1_forced_recovery_skips_integrity (stats : bootloader_stats_t)
    (integrityRes autoRes manualRes : EspErr) (ts : Nat) :
    let tr := (bootloader_check_and_decide stats integrityRes autoRes
      manualRes ts).2.2
    (MAX_BOOT_ATTEMPTS ≤ stats.boot_attempts ∨
        MAX_RECOVERY_ATTEMPTS ≤ stats.recovery_attempts →
        BootEvent.integrityCheck ∉ tr ∧ BootEvent.autoRecovery ∈ tr) ∧
    (BootEvent.integrityCheck ∈ tr →
        stats.boot_attempts < MAX_BOOT_ATTEMPTS ∧
          stats.recovery_attempts < MAX_RECOVERY_ATTEMPTS) := by
  cases hf : should_force_recovery stats with
  | true =>
      constructor
      · intro _
        by_cases ha : autoRes = .ESP_OK <;>
          by_cases hm : manualRes = .ESP_OK <;>
            simp [bootloader_check_and_decide, hf, ha, hm]
      · intro hmem
        exfalso
        by_cases ha : autoRes = .ESP_OK <;>
          by_cases hm : manualRes = .ESP_OK <;>
            simp [bootloader_check_and_decide, hf, ha, hm] at hmem
  | false =>
      have hbelow : stats.boot_attempts < MAX_BOOT_ATTEMPTS ∧
          stats.recovery_attempts < MAX_RECOVERY_ATTEMPTS := by
        have hiff := should_force_recovery_iff stats
        rw [hf] at hiff
        simp at hiff
        omega
      constructor
      · intro hth
        exact absurd ((should_force_recovery_iff stats).mpr hth)
          (by simp [hf])
      · intro _
        exact hbelow

/-- Witness for C1 at `boot_attempts = 3` with an integrity checker that
would report success (`ESP_OK`): recovery is still entered and the checker
is never consulted. -/
theorem C1_forced_recovery_skips_integrity_witness :
    let tr := (bootloader_check_and_decide
      ⟨3, 0, 5, 0, .BOOT_REASON_NORMAL, 0, false⟩
      .ESP_OK .ESP_FAIL .ESP_FAIL 0).2.2
    BootEvent.integrityCheck ∉ tr ∧ BootEvent.autoRecovery ∈ tr :=
  (C1_forced_recovery_skips_integrity
    ⟨3, 0, 5, 0, .BOOT_REASON_NORMAL, 0, false⟩
    .ESP_OK .ESP_FAIL .ESP_FAIL 0).1 (Or.inl (by decide))

/-- C8 counterexample: the claim that `total_recoveries` is unchanged by
the recording step on the failed-recovery path is false. Starting from
statistics `⟨boot_attempts 3, recovery_attempts 0, total_boots 5,
total_recoveries 0, ...⟩` with both recoveries failing, the statistics
blob persisted immediately before manual recovery already carries
`total_recoveries = 1`: `record_recovery_event` increments
`total_recoveries` unconditionally, on failure as well as on success. -/
theorem C8_counterexample :
    (bootloader_check_and_decide ⟨3, 0, 5, 0, .BOOT_REASON_NORMAL, 0, false⟩
        .ESP_OK .ESP_FAIL .ESP_FAIL 0).2.2 =
      [.autoRecovery,
       .saveStats ⟨3, 1, 5, 1, .BOOT_REASON_RECOVERY, 0, false⟩,
       .manualRecovery .BOOT_REASON_RECOVERY,
       .saveStats ⟨3, 2, 5, 2, .BOOT_REASON_RECOVERY, 0, false⟩,
       .criticalNotify] ∧
      (⟨3, 1, 5, 1, .BOOT_REASON_RECOVERY, 0, false⟩ :
          bootloader_stats_t).total_recoveries ≠
        (⟨3, 0, 5, 0, .BOOT_REASON_NORMAL, 0, false⟩ :
          bootloader_stats_t).total_recoveries := by
  constructor
  · rfl
  · decide

/-- C8 (amended): when automatic recovery fails, the escalation controller
records the event and persists the statistics immediately before invoking
manual recovery; the recorded statistics carry `recovery_attempts`
incremented by exactly one (at the counter's 8-bit width), `boot_attempts`
unchanged, and `total_recoveries` incremented by exactly one as well (at
its 32-bit width) — the total counts recovery attempts, successful or not,
rather than only successes. -/
theorem C8_failed_recovery_recording (stats : bootloader_stats_t)
    (integrityRes autoRes manualRes : EspErr) (ts : Nat)
    (hrec : should_force_recovery stats = true ∨ integrityRes ≠ .ESP_OK)
    (hauto : autoRes ≠ .ESP_OK) :
    ∃ (s2 : bootloader_stats_t) (pre post : List BootEvent),
      (bootloader_check_and_decide stats integrityRes autoRes manualRes
          ts).2.2 =
        pre ++ BootEvent.saveStats s2 ::
          BootEvent.manualRecovery s2.last_boot_reason :: post ∧
      s2.recovery_attempts = (stats.recovery_attempts + 1) % UINT8_MOD ∧
      s2.boot_attempts = stats.boot_attempts ∧
      s2.total_recoveries = (stats.total_recoveries + 1) % UINT32_MOD := by
  cases hf : should_force_recovery stats with
  | true =>
      refine ⟨record_recovery_event false ts
        { stats with last_boot_reason := .BOOT_REASON_MULTIPLE_FAILURES },
        [.autoRecovery], ?_, ?_, ?_, ?_, ?_⟩
      · exact if manualRes = .ESP_OK then
          [.saveStats (record_recovery_event true ts
            (record_recovery_event false ts
              { stats with
                  last_boot_reason := .BOOT_REASON_MULTIPLE_FAILURES })),
           .restart]
        else
          [.saveStats (record_recovery_event false ts
            (record_recovery_event false ts
              { stats with
                  last_boot_reason := .BOOT_REASON_MULTIPLE_FAILURES })),
           .criticalNotify]
      · by_cases hm : manualRes = .ESP_OK <;>
          simp [bootloader_check_and_decide, hf, hauto, hm,
            record_recovery_event]
      · simp [record_recovery_event]
      · simp [record_recovery_event]
      · simp [record_recovery_event]
  | false =>
      have hint : integrityRes ≠ .ESP_OK := by
        rcases hrec with h | h
        · rw [hf] at h
          exact absurd h (by simp)
        · exact h
      refine ⟨record_recovery_event false ts
        { stats with last_boot_reason := .BOOT_REASON_CORRUPTION },
        [.integrityCheck, .autoRecovery], ?_, ?_, ?_, ?_, ?_⟩
      · exact if manualRes = .ESP_OK then
          [.saveStats (record_recovery_event true ts
            (record_recovery_event false ts
              { stats with last_boot_reason := .BOOT_REASON_CORRUPTION })),
           .restart]
        else
          [.saveStats (record_recovery_event false ts
            (record_recovery_event false ts
              { stats with last_boot_reason := .BOOT_REASON_CORRUPTION })),
           .criticalNotify]
      · by_cases hm : manualRes = .ESP_OK <;>
          simp [bootloader_check_and_decide, hf, hint, hauto, hm,
            record_recovery_event]
      · simp [record_recovery_event]
      · simp [record_recovery_event]
      · simp [record_recovery_event]

/-- Witness for C8 (amended) at `boot_attempts = 3` with both recoveries
failing. -/
theorem C8_failed_recovery_recording_witness :
    ∃ (s2 : bootloader_stats_t) (pre post : List BootEvent),
      (bootloader_check_and_decide
          ⟨3, 0, 5, 0, .BOOT_REASON_NORMAL, 0, false⟩
          .ESP_OK .ESP_FAIL .ESP_FAIL 0).2.2 =
        pre ++ BootEvent.saveStats s2 ::
          BootEvent.manualRecovery s2.last_boot_reason :: post ∧
      s2.recovery_attempts = (0 + 1) % UINT8_MOD ∧
      s2.boot_attempts = 3 ∧
      s2.total_recoveries = (0 + 1) % UINT32_MOD :=
  C8_failed_recovery_recording
    ⟨3, 0, 5, 0, .BOOT_REASON_NORMAL, 0, false⟩
    .ESP_OK .ESP_FAIL .ESP_FAIL 0 (Or.inl (by decide)) (by decide)

/-- C9: starting from `recovery_attempts = 0`, when the recovery path is
taken and both automatic and manual recovery fail,
`bootloader_check_and_decide` emits the critical notification, returns the
critical-failure outcome (`ESP_FAIL`), never triggers a restart, and the
final statistics — persisted by the last recording step — carry
`recovery_attempts = 2` (one increment per failed recovery stage). -/
theorem C9_double_failure_critical (stats : bootloader_stats_t)
    (integrityRes autoRes manualRes : EspErr) (ts : Nat)
    (hra : stats.recovery_attempts = 0)
    (hrec : should_force_recovery stats = true ∨ integrityRes ≠ .ESP_OK)
    (hauto : autoRes ≠ .ESP_OK) (hman : manualRes ≠ .ESP_OK) :
    let r := bootloader_check_and_decide stats integrityRes autoRes
      manualRes ts
    r.1 = .CriticalFailure ∧ BootEvent.criticalNotify ∈ r.2.2 ∧
      BootEvent.restart ∉ r.2.2 ∧ r.2.1.recovery_attempts = 2 ∧
      BootEvent.saveStats r.2.1 ∈ r.2.2 := by
  cases hf : should_force_recovery stats with
  | true =>
      simp [bootloader_check_and_decide, hf, hauto, hman,
        record_recovery_event, hra, UINT8_MOD]
  | false =>
      have hint : integrityRes ≠ .ESP_OK := by
        rcases hrec with h | h
        · rw [hf] at h
          exact absurd h (by simp)
        · exact h
      simp [bootloader_check_and_decide, hf, hint, hauto, hman,
        record_recovery_event, hra, UINT8_MOD]

/-- Witness for C9 at a corruption-detected boot (`ESP_ERR_INVALID_CRC`
from the integrity checker) with both recoveries failing. -/
theorem C9_double_failure_critical_witness :
    let r := bootloader_check_and_decide
      ⟨1, 0, 5, 0, .BOOT_REASON_NORMAL, 0, false⟩
      .ESP_ERR_INVALID_CRC .ESP_FAIL .ESP_FAIL 0
    r.1 = .CriticalFailure ∧ BootEvent.criticalNotify ∈ r.2.2 ∧
      BootEvent.restart ∉ r.2.2 ∧ r.2.1.recovery_attempts = 2 ∧
      BootEvent.saveStats r.2.1 ∈ r.2.2 :=
  C9_double_failure_critical
    ⟨1, 0, 5, 0, .BOOT_REASON_NORMAL, 0, false⟩
    .ESP_ERR_INVALID_CRC .ESP_FAIL .ESP_FAIL 0
    (by decide) (Or.inr (by decide)) (by decide) (by decide)
